import Mathlib

/-
Verification of the pan-os-python configuration-tree core against its
specification.  The definitions below are a shallow embedding of the code in
src/pandevice/panorama.py and src/pandevice/network.py:

- `Xml` models `xml.etree.ElementTree.Element` restricted to the features this
  code uses: a tag, the `name` attribute, the element text, and the ordered
  child list.  `deepcopy` is the identity in this pure model.
- Python string truthiness (`if self.zone:` etc.) is modelled by `strTruthy`;
  `None` is modelled by `Option`.
- The embedding keeps the source's control flow; comments mark lines of the
  source file each definition corresponds to.
-/

set_option autoImplicit false

namespace PanDevice

/-- Model of an `xml.etree.ElementTree.Element` as used by the sources: a tag,
the optional `name` attribute (the only attribute the code reads or writes),
the optional text, and the ordered list of child elements. -/
inductive Xml where
  | mk (tag : String) (nameAttr : Option String) (text : Option String)
       (children : List Xml)

def Xml.tag : Xml → String
  | .mk t _ _ _ => t

def Xml.nameAttr : Xml → Option String
  | .mk _ n _ _ => n

def Xml.text : Xml → Option String
  | .mk _ _ tx _ => tx

def Xml.children : Xml → List Xml
  | .mk _ _ _ cs => cs

@[simp] theorem Xml.tag_mk (t : String) (n tx : Option String) (cs : List Xml) :
    (Xml.mk t n tx cs).tag = t := rfl

@[simp] theorem Xml.nameAttr_mk (t : String) (n tx : Option String) (cs : List Xml) :
    (Xml.mk t n tx cs).nameAttr = n := rfl

@[simp] theorem Xml.text_mk (t : String) (n tx : Option String) (cs : List Xml) :
    (Xml.mk t n tx cs).text = tx := rfl

@[simp] theorem Xml.children_mk (t : String) (n tx : Option String) (cs : List Xml) :
    (Xml.mk t n tx cs).children = cs := rfl

/-- Replace the child list of an element (used to model in-place mutation). -/
def Xml.withChildren : Xml → List Xml → Xml
  | .mk t n tx _, cs => .mk t n tx cs

/-- Model of `ET.SubElement(x, ...)` / `x.append(c)`: append one child. -/
def Xml.addChild (x : Xml) (c : Xml) : Xml :=
  x.withChildren (x.children ++ [c])

/-- Direct children with the given tag; models the path step `tag` of
`Element.findall`. -/
def Xml.childrenTagged (x : Xml) (t : String) : List Xml :=
  x.children.filter (fun c => c.tag == t)

/-- All matches of the two-step path `t1/t2` in document order; models
`Element.findall("t1/t2")`. -/
def Xml.findall2 (x : Xml) (t1 t2 : String) : List Xml :=
  (x.childrenTagged t1).flatMap (fun c => c.childrenTagged t2)

/-- Model of `Element.findtext("t")`: `none` when no direct child has tag `t`
(Python returns the `None` default), and `some` of the child's text — with a
missing text mapped to the empty string — when the child exists. -/
def Xml.findtext1 (x : Xml) (t : String) : Option String :=
  (x.children.find? (fun c => c.tag == t)).map (fun c => c.text.getD "")

/-- First element of a child list with the given tag and `name` attribute;
models `find("t[@name='n']")` run on an element whose children are `cs`. -/
def findNamed (cs : List Xml) (t : String) (n : Option String) : Option Xml :=
  cs.find? (fun c => c.tag == t && c.nameAttr == n)

/-- All elements of a child list with the given tag and `name` attribute;
models `findall("t[@name='n']")`. -/
def entriesNamed (cs : List Xml) (t : String) (n : Option String) : List Xml :=
  cs.filter (fun c => c.tag == t && c.nameAttr == n)

/-- Model of `x.find("t1/t2[@name='n']")`: first match in document order. -/
def Xml.find2Named (x : Xml) (t1 t2 : String) (n : Option String) : Option Xml :=
  ((x.childrenTagged t1).flatMap (fun c => entriesNamed c.children t2 n)).head?

/-- Python string truthiness of an optional string: `None` and `""` are falsy. -/
def strTruthy : Option String → Bool
  | none => false
  | some s => !s.isEmpty

/-! ## Commit command construction (`Panorama.commit_all`, panorama.py 182-193)

With `cmd=None` the method builds an ElementTree command:
an empty `<commit-all>`; when `devicegroup` is given, a
`shared-policy/device-group/entry[@name=devicegroup]` subtree; when `serials`
is additionally truthy (non-empty), a `<devices>` element under that entry
with one `<entry name=serial>` per serial. -/

def commitAllCmd (devicegroup : Option String) (serials : List String) : Xml :=
  -- e = ET.Element("commit-all")
  let e : Xml := .mk "commit-all" none none []
  match devicegroup with
  | none => e
  | some dgname =>
      -- sp = SubElement(e, "shared-policy"); dg = SubElement(sp, "device-group")
      -- dg_e = SubElement(dg, "entry", {"name": devicegroup})
      -- if serials: d = SubElement(dg_e, "devices"); entries for each serial
      let dgEntry : Xml := .mk "entry" (some dgname) none
        (if serials.isEmpty then []
         else [.mk "devices" none none
                 (serials.map (fun s => .mk "entry" (some s) none []))])
      .mk "commit-all" none none
        [.mk "shared-policy" none none
          [.mk "device-group" none none [dgEntry]]]

/-- C8: the submitted command is a `<commit-all>` element; with a devicegroup
it carries the `shared-policy/device-group/entry` subtree, with serials that
entry carries a `devices` element holding one entry per serial, and with no
devicegroup there is no scoping subtree. -/
theorem commitAll_cmd_shape (devicegroup : Option String) (serials : List String) :
    (commitAllCmd devicegroup serials).tag = "commit-all"
    ∧ (devicegroup = none → (commitAllCmd devicegroup serials).children = [])
    ∧ (∀ dgname, devicegroup = some dgname →
        (commitAllCmd devicegroup serials).children =
          [.mk "shared-policy" none none
            [.mk "device-group" none none
              [.mk "entry" (some dgname) none
                (if serials.isEmpty then []
                 else [.mk "devices" none none
                        (serials.map (fun s => .mk "entry" (some s) none []))])]]]) := by
  refine ⟨?_, ?_, ?_⟩
  · cases devicegroup <;> rfl
  · intro h; subst h; rfl
  · intro dgname h; subst h; rfl

/-- Witness for `commitAll_cmd_shape` at a concrete device-group and serial
list. -/
theorem commitAll_cmd_shape_witness :
    (commitAllCmd (some "DG1") ["0001", "0002"]).children =
      [.mk "shared-policy" none none
        [.mk "device-group" none none
          [.mk "entry" (some "DG1") none
            [.mk "devices" none none
              [.mk "entry" (some "0001") none [],
               .mk "entry" (some "0002") none []]]]]] := by
  have h := (commitAll_cmd_shape (some "DG1") ["0001", "0002"]).2.2 "DG1" rfl
  simpa using h

/-! ## Requested-device filtering (`Panorama.refresh_devices`, panorama.py 259-295)

`refresh_devices` first obtains the operational device list (`show devices
connected` when `only_connected`, else `show devices all`), then — when the
caller passed a `devices` argument — filters that list to the requested
serials, raising `PanNotConnectedOnPanorama` / `PanNotAttachedOnPanorama` for
a requested serial with no matching entry. -/

/-- Errors raised inside `refresh_devices`.  `attrError` and `valueError`
model the Python `AttributeError` / `ValueError` that the source raises on
degenerate inputs (`vsys_section.append` on `None`, `entry_copy.remove(None)`). -/
inductive PanoErr where
  | notConnected   -- err.PanNotConnectedOnPanorama
  | notAttached    -- err.PanNotAttachedOnPanorama
  | attrError
  | valueError
deriving DecidableEq

/-- One element of the `devices` argument of `refresh_devices`.  `serial` is
`str(device)`; `vsysAttr` is `none` when the device has no `.vsys` attribute
(a plain serial string was passed, so `device.vsys` raises `AttributeError`),
and `some v` when the device is a Firewall-like object with `.vsys = v`. -/
structure ReqDevice where
  serial : String
  vsysAttr : Option (Option String)
deriving DecidableEq

/-- Remove the first direct child with the given tag; models
`entry_copy.remove(entry_copy.find(t))` when such a child exists. -/
def removeFirstChildTag (x : Xml) (t : String) : Xml :=
  x.withChildren (x.children.eraseP (fun c => c.tag == t))

/-- Append `ve` into the first direct child with the given tag.  Identity when
no such child exists (callers guard that case). -/
def appendToFirstTag (cs : List Xml) (t : String) (ve : Xml) : List Xml :=
  match cs with
  | [] => []
  | c :: rest =>
      if c.tag == t then c.addChild ve :: rest
      else c :: appendToFirstTag rest t ve

/-- Model of `vsys_section = filtered.find("entry[@name=serial]/vsys")`
followed by `vsys_section.append(vsys_entry)`: the first entry named `serial`
that has a `vsys` child gets `ve` appended into its first `vsys` child.
`none` when no such section exists (Python: `AttributeError` on `None`). -/
def appendIntoVsysSection (cs : List Xml) (serial : String) (ve : Xml) :
    Option (List Xml) :=
  match cs with
  | [] => none
  | c :: rest =>
      if c.tag == "entry" && c.nameAttr == some serial
          && !(c.childrenTagged "vsys").isEmpty then
        some (c.withChildren (appendToFirstTag c.children "vsys" ve) :: rest)
      else (appendIntoVsysSection rest serial ve).map (c :: ·)

/-- One iteration of the filter loop (panorama.py 261-294) over the running
filtered entry list.  `devicesXml` is the child list of the operational
`<devices>` element. -/
def filterStep (devicesXml : List Xml) (onlyConnected : Bool)
    (filtered : List Xml) (d : ReqDevice) : Except PanoErr (List Xml) :=
  -- serial = str(device); the `if serial is None: continue` test in the source
  -- is dead code, since str() never returns None
  let serial := d.serial
  match findNamed devicesXml "entry" (some serial) with
  | none =>
      -- raise PanNotConnectedOnPanorama / PanNotAttachedOnPanorama
      .error (if onlyConnected then .notConnected else .notAttached)
  | some entry =>
      -- multi_vsys = yesno(entry.findtext("multi-vsys")) is computed by the
      -- source but never used
      match d.vsysAttr with
      | none => .ok filtered          -- device.vsys raises AttributeError: continue
      | some vsys =>
          -- `vsys != "shared" and vsys is not None`
          let specific : Bool := vsys != some "shared" && vsys != none
          let needCopy : Bool := (findNamed filtered "entry" (some serial)).isNone
          -- entry_copy.remove(entry_copy.find("vsys")) raises ValueError when
          -- the entry has no vsys child
          if needCopy && specific && (entry.childrenTagged "vsys").isEmpty then
            .error .valueError
          else
            let f2 :=
              if needCopy then
                let entryCopy :=
                  if specific then
                    (removeFirstChildTag entry "vsys").addChild
                      (.mk "vsys" none none [])
                  else entry
                filtered ++ [entryCopy]
              else filtered
            match vsys with
            | none => .ok f2
            | some v =>
                if v == "shared" then .ok f2
                else
                  match entry.find2Named "vsys" "entry" (some v) with
                  | none => .error .notAttached     -- raise PanNotAttachedOnPanorama
                  | some vsysEntry =>
                      match appendIntoVsysSection f2 serial vsysEntry with
                      | none => .error .attrError   -- vsys_section is None
                      | some f3 => .ok f3

/-- The filter loop over all requested devices. -/
def filterGo (devicesXml : List Xml) (onlyConnected : Bool) :
    List Xml → List ReqDevice → Except PanoErr (List Xml)
  | filtered, [] => .ok filtered
  | filtered, d :: rest =>
      match filterStep devicesXml onlyConnected filtered d with
      | .error e => .error e
      | .ok f2 => filterGo devicesXml onlyConnected f2 rest

/-- The requested-device filtering stage of `refresh_devices`; when no devices
were requested the operational list passes through unchanged (`if devices:`). -/
def filterRequestedDevices (devicesXml : List Xml) (onlyConnected : Bool)
    (reqs : List ReqDevice) : Except PanoErr (List Xml) :=
  if reqs.isEmpty then .ok devicesXml
  else filterGo devicesXml onlyConnected [] reqs

/-! ## Virtual-system expansion (`Panorama.refresh_devices`, panorama.py 297-308)

With `expand_vsys`, each entry of the operational device list is exploded into
one record per `vsys/entry` child: a deep copy of the entry whose `name`
attribute is set to the serial and which gains `vsys_id` / `vsys_name`
sub-elements.  Note the copy keeps the entry's original `vsys` element. -/

/-- Expansion of one physical device entry. -/
def expandEntry (entry : Xml) : List Xml :=
  -- serial = entry.findtext("serial")
  -- for vsys_entry in entry.findall("vsys/entry"): ...
  (entry.findall2 "vsys" "entry").map (fun ve =>
    -- new_vsys_device = deepcopy(entry); new_vsys_device.set("name", serial)
    -- SubElement(new_vsys_device, "vsys_id").text = vsys_entry.get("name")
    -- SubElement(new_vsys_device, "vsys_name").text =
    --     vsys_entry.findtext("display-name")
    Xml.mk entry.tag (entry.findtext1 "serial") entry.text
      (entry.children ++
        [.mk "vsys_id" none ve.nameAttr [],
         .mk "vsys_name" none (ve.findtext1 "display-name") []]))

/-- The full expansion over the operational device list. -/
def expandVsys (entries : List Xml) : List Xml :=
  entries.flatMap expandEntry

/-! ## Device-group reconciliation (`Panorama.refresh_devices`, panorama.py 343-388)

The loop walks the (config-and-operational combined) device-group
configuration XML: for each device-group, each declared member serial and each
of its declared vsys (defaulting to `vsys1` for single-context devices), it
moves the matching firewall instance into the device-group — recording its
shared-policy sync status — or, when no instance matches and not
`only_connected`, synthesizes a placeholder instance carrying only serial and
vsys.  `pandevice.xml_combine` merges the operational `show devicegroups`
output into the configuration XML before this loop; the model takes the
already-combined tree as input. -/

/-- A `firewall.Firewall` instance as far as this loop observes it: serial,
vsys, and the shared-policy sync status (`spSync = some s` once
`fw.state.set_shared_policy_synced(s)` has been called, `none` when the status
was never set — in particular for synthesized placeholder instances). -/
structure FW where
  serial : Option String
  vsys : Option String
  spSync : Option (Option String)
deriving DecidableEq

/-- Modelled from the spec: `DeviceGroup.refreshall_from_xml` lives in the
package's base module, which is not among the sources here.  Per the spec
("Build Device Group nodes from the configuration view") it creates one
device-group node per `entry` child of the configuration view, named by the
entry's `name` attribute. -/
def dgNamesFromConfig (cfg : List Xml) : List (Option String) :=
  (cfg.filter (fun c => c.tag == "entry")).map Xml.nameAttr

/-- `devicegroup_configxml.findall("entry[@name=dg]/devices/entry")`:
the membership entries of one device-group. -/
def dgSerialEntries (cfg : List Xml) (dgName : Option String) : List Xml :=
  (entriesNamed cfg "entry" dgName).flatMap (fun e =>
    (e.childrenTagged "devices").flatMap (fun d => d.childrenTagged "entry"))

/-- `dg_serials`: the `name` attributes of the membership entries. -/
def dgSerials (cfg : List Xml) (dgName : Option String) : List (Option String) :=
  (dgSerialEntries cfg dgName).map Xml.nameAttr

/-- `findall("entry[@name=dg]/devices/entry[@name=serial]/vsys/entry")` name
attributes: the per-vsys membership a device-group declares for one serial. -/
def allDgVsys (cfg : List Xml) (dgName dgSerial : Option String) :
    List (Option String) :=
  (((entriesNamed cfg "entry" dgName).flatMap (fun e =>
      (e.childrenTagged "devices").flatMap (fun d =>
        entriesNamed d.children "entry" dgSerial))).flatMap
    (fun fe => fe.findall2 "vsys" "entry")).map Xml.nameAttr

/-- `fw_entry = find("entry[@name=dg]/devices/entry[@name=serial]")`. -/
def fwEntryFor (cfg : List Xml) (dgName dgSerial : Option String) : Option Xml :=
  ((entriesNamed cfg "entry" dgName).flatMap (fun e =>
    (e.childrenTagged "devices").flatMap (fun d =>
      entriesNamed d.children "entry" dgSerial))).head?

/-- `[f.vsys for f in devices]`: `none` when some requested device lacks the
`vsys` attribute (the comprehension raises `AttributeError`, which the source
catches with `pass`). -/
def reqVsysList : List ReqDevice → Option (List (Option String))
  | [] => some []
  | d :: rest =>
      match d.vsysAttr with
      | none => none
      | some v => (reqVsysList rest).map (v :: ·)

/-- The `continue` test of panorama.py 363-373: skip this vsys when devices
were requested, all of them expose a vsys, and neither `shared`, `None` nor
this vsys is among the requested ones. -/
def vsysSkip (reqs : List ReqDevice) (dgVsys : Option String) : Bool :=
  if reqs.isEmpty then false
  else
    match reqVsysList reqs with
    | none => false
    | some rv =>
        !(rv.contains (some "shared")) && !(rv.contains none)
          && !(rv.contains dgVsys)

/-- The find condition of panorama.py 374:
`x.serial == dg_serial and x.vsys == dg_vsys`. -/
def matchesFW (dgSerial dgVsys : Option String) (x : FW) : Bool :=
  x.serial == dgSerial && x.vsys == dgVsys

/-- `shared_policy_status` lookup (panorama.py 385-387): the entry's own
`shared-policy-status` text, falling back to
`vsys/entry[@name=dg_vsys]/shared-policy-status` when the element is absent. -/
def sharedPolicyStatus (fwEntry : Xml) (dgVsys : Option String) : Option String :=
  match fwEntry.findtext1 "shared-policy-status" with
  | some s => some s
  | none =>
      (((fwEntry.childrenTagged "vsys").flatMap
          (fun v => entriesNamed v.children "entry" dgVsys)).flatMap
        (fun ve => ve.childrenTagged "shared-policy-status")).head?.map
        (fun el => el.text.getD "")

/-- The body of the inner `for dg_vsys in all_dg_vsys` loop (panorama.py
362-388).  State: (remaining ungrouped firewall instances, firewalls collected
into the current device-group so far). -/
def processVsys (onlyConnected : Bool) (reqs : List ReqDevice)
    (fwEntry : Option Xml) (dgSerial : Option String)
    (st : List FW × List FW) (dgVsys : Option String) : List FW × List FW :=
  if vsysSkip reqs dgVsys then st
  else
    match st.1.find? (matchesFW dgSerial dgVsys) with
    | none =>
        -- device-groups may reference a serial/vsys that does not exist:
        -- synthesize the instance unless only_connected
        if onlyConnected then st
        else (st.1, st.2 ++ [⟨dgSerial, dgVsys, none⟩])
    | some fw =>
        -- move the firewall into the device-group and record sync status
        let sps :=
          match fwEntry with
          | none => none  -- Python raises AttributeError here (fw_entry is None);
                          -- reachable only when a matched membership entry
                          -- cannot be re-found by name, which the claims'
                          -- inputs exclude
          | some fe => sharedPolicyStatus fe dgVsys
        (st.1.eraseP (matchesFW dgSerial dgVsys),
         st.2 ++ [{ fw with spSync := some sps }])

/-- The body of the `for dg_serial in dg_serials` loop (panorama.py 351-388). -/
def processSerial (cfg : List Xml) (onlyConnected : Bool)
    (reqs : List ReqDevice) (dgName : Option String)
    (st : List FW × List FW) (dgSerial : Option String) : List FW × List FW :=
  -- if devices and dg_serial not in [str(f) for f in devices]: continue
  if !reqs.isEmpty && !((reqs.map (fun d => some d.serial)).contains dgSerial) then
    st
  else
    let declared := allDgVsys cfg dgName dgSerial
    let fwEntry := fwEntryFor cfg dgName dgSerial
    -- if not all_dg_vsys: this is a single-context firewall, assume vsys1
    let vsysList := if declared.isEmpty then [some "vsys1"] else declared
    vsysList.foldl (processVsys onlyConnected reqs fwEntry dgSerial) st

/-- The body of the outer `for dg in devicegroup_instances` loop: run the
serial loop for one device-group (its collected-children list starting empty)
and record the group's children.  Accumulator: (per-group results so far,
remaining ungrouped firewall instances). -/
def processDGStep (cfg : List Xml) (reqs : List ReqDevice) (onlyConnected : Bool)
    (acc : List (Option String × List FW) × List FW) (dgName : Option String) :
    List (Option String × List FW) × List FW :=
  let step := (dgSerials cfg dgName).foldl
    (processSerial cfg onlyConnected reqs dgName) (acc.2, [])
  (acc.1 ++ [(dgName, step.2)], step.1)

/-- The full device-group loop (panorama.py 348-388): returns the per-group
collected firewalls in order, and the firewall instances left ungrouped. -/
def reconcileDGs (cfg : List Xml) (reqs : List ReqDevice) (onlyConnected : Bool)
    (instances : List FW) : List (Option String × List FW) × List FW :=
  (dgNamesFromConfig cfg).foldl (processDGStep cfg reqs onlyConnected)
    ([], instances)

/-! ## General list helpers -/

theorem find?_split {α : Type} (p : α → Bool) (xs ys : List α) :
    (xs ++ ys).find? p =
      match xs.find? p with
      | some a => some a
      | none => ys.find? p := by
  induction xs with
  | nil => simp
  | cons a l ih =>
      simp only [List.cons_append, List.find?]
      cases p a
      · simpa using ih
      · simp

theorem find?_append_right {α : Type} (p : α → Bool) (xs ys : List α)
    (h : ∀ c ∈ xs, p c = false) : (xs ++ ys).find? p = ys.find? p := by
  rw [find?_split]
  have : xs.find? p = none := List.find?_eq_none.mpr (by simpa using h)
  simp [this]

theorem find?_append_left {α : Type} (p : α → Bool) (xs ys : List α)
    (h : ∀ c ∈ ys, p c = false) : (xs ++ ys).find? p = xs.find? p := by
  rw [find?_split]
  have hy : ys.find? p = none := List.find?_eq_none.mpr (by simpa using h)
  cases hx : xs.find? p <;> simp [hy]

/-! ## C2: requested serial with no operational entry -/

theorem filterGo_append (xml : List Xml) (oc : Bool) (st : List Xml)
    (as bs : List ReqDevice) :
    filterGo xml oc st (as ++ bs) =
      match filterGo xml oc st as with
      | .ok st2 => filterGo xml oc st2 bs
      | .error e => .error e := by
  induction as generalizing st with
  | nil => simp [filterGo]
  | cons d rest ih =>
      simp only [List.cons_append, filterGo]
      cases filterStep xml oc st d with
      | error e => rfl
      | ok f2 => exact ih f2

/-- C2: a requested serial with no matching entry in the operational device
list makes `refresh_devices` fail with `PanNotConnectedOnPanorama` when
`only_connected` and `PanNotAttachedOnPanorama` otherwise; no filtered device
list is returned.  The hypothesis `hpre` states that the requests preceding
the missing one process without raising. -/
theorem refresh_missing_serial_error (xml : List Xml) (oc : Bool)
    (pre post : List ReqDevice) (d : ReqDevice) (st : List Xml)
    (hpre : filterGo xml oc [] pre = .ok st)
    (hmiss : findNamed xml "entry" (some d.serial) = none) :
    filterRequestedDevices xml oc (pre ++ d :: post) =
      .error (if oc then PanoErr.notConnected else PanoErr.notAttached) := by
  have hne : ((pre ++ d :: post).isEmpty) = false := by
    cases pre <;> rfl
  unfold filterRequestedDevices
  rw [hne]
  simp only [Bool.false_eq_true, if_false]
  rw [filterGo_append, hpre]
  show filterGo xml oc st (d :: post) = _
  simp only [filterGo, filterStep, hmiss]

/-- Witness for `refresh_missing_serial_error`: requesting serial `0002` when
only `0001` is attached fails with the not-attached error. -/
theorem refresh_missing_serial_error_witness :
    filterRequestedDevices [Xml.mk "entry" (some "0001") none []] false
      ([] ++ ⟨"0002", none⟩ :: []) = .error PanoErr.notAttached := by
  have h := refresh_missing_serial_error [Xml.mk "entry" (some "0001") none []]
    false [] [] ⟨"0002", none⟩ [] rfl rfl
  simpa using h

/-! ## C1: virtual-system expansion -/

/-- C1 (amended): a device entry with N `vsys` child entries expands to
exactly N records; all records carry the entry's serial (both as the `name`
attribute and as the retained `serial` element); the i-th record's `vsys_id`
is the i-th vsys entry's name (so the ids are pairwise distinct when the
declared vsys names are) and its `vsys_name` is that vsys's display name; but
every record retains the original combined `vsys` list of the physical entry,
because the expansion copies the whole entry without removing its `vsys`
element. -/
theorem expandVsys_per_vsys_records (e : Xml)
    (h1 : ∀ c ∈ e.children, c.tag ≠ "vsys_id")
    (h2 : ∀ c ∈ e.children, c.tag ≠ "vsys_name")
    (h3 : ∀ v ∈ e.findall2 "vsys" "entry", v.nameAttr.isSome = true) :
    (expandEntry e).length = (e.findall2 "vsys" "entry").length
    ∧ (expandEntry e).map (fun r => r.findtext1 "serial")
        = (e.findall2 "vsys" "entry").map (fun _ => e.findtext1 "serial")
    ∧ (expandEntry e).map Xml.nameAttr
        = (e.findall2 "vsys" "entry").map (fun _ => e.findtext1 "serial")
    ∧ (expandEntry e).map (fun r => r.findtext1 "vsys_id")
        = (e.findall2 "vsys" "entry").map (fun v => some (v.nameAttr.getD ""))
    ∧ (expandEntry e).map (fun r => r.findtext1 "vsys_name")
        = (e.findall2 "vsys" "entry").map
            (fun v => some ((v.findtext1 "display-name").getD ""))
    ∧ (expandEntry e).map (fun r => r.findall2 "vsys" "entry")
        = (e.findall2 "vsys" "entry").map (fun _ => e.findall2 "vsys" "entry")
    ∧ (((e.findall2 "vsys" "entry").map Xml.nameAttr).Nodup →
        ((expandEntry e).map (fun r => r.findtext1 "vsys_id")).Nodup) := by
  have h1b : ∀ c ∈ e.children, (c.tag == "vsys_id") = false := by
    intro c hc; exact beq_eq_false_iff_ne.mpr (h1 c hc)
  have h2b : ∀ c ∈ e.children, (c.tag == "vsys_name") = false := by
    intro c hc; exact beq_eq_false_iff_ne.mpr (h2 c hc)
  have hid : (expandEntry e).map (fun r => r.findtext1 "vsys_id")
      = (e.findall2 "vsys" "entry").map (fun v => some (v.nameAttr.getD "")) := by
    simp only [expandEntry, List.map_map]
    refine List.map_congr_left (fun ve _ => ?_)
    simp only [Function.comp, Xml.findtext1, Xml.children_mk]
    rw [find?_append_right _ _ _ h1b]
    rfl
  refine ⟨?_, ?_, ?_, hid, ?_, ?_, ?_⟩
  · simp [expandEntry]
  · simp only [expandEntry, List.map_map]
    refine List.map_congr_left (fun ve _ => ?_)
    simp only [Function.comp, Xml.findtext1, Xml.children_mk]
    rw [find?_append_left]
    intro c hc
    simp only [List.mem_cons, List.not_mem_nil, or_false] at hc
    rcases hc with h | h <;> subst h <;> rfl
  · simp only [expandEntry, List.map_map]
    exact List.map_congr_left (fun ve _ => rfl)
  · simp only [expandEntry, List.map_map]
    refine List.map_congr_left (fun ve _ => ?_)
    simp only [Function.comp, Xml.findtext1, Xml.children_mk]
    rw [find?_append_right _ _ _ h2b]
    rfl
  · simp only [expandEntry, List.map_map]
    refine List.map_congr_left (fun ve _ => ?_)
    simp only [Function.comp, Xml.findall2, Xml.childrenTagged, Xml.children_mk,
      List.filter_append]
    have hx : List.filter (fun c => c.tag == "vsys")
        [Xml.mk "vsys_id" none ve.nameAttr [],
         Xml.mk "vsys_name" none (ve.findtext1 "display-name") []] = [] := rfl
    rw [hx, List.append_nil]
  · intro hnd
    rw [hid]
    have hmm : (e.findall2 "vsys" "entry").map (fun v => some (v.nameAttr.getD ""))
        = ((e.findall2 "vsys" "entry").map Xml.nameAttr).map
            (fun o => some (o.getD "")) := by
      simp [List.map_map]
    rw [hmm]
    refine hnd.map_on ?_
    intro x hx y hy hxy
    simp only [List.mem_map] at hx hy
    obtain ⟨vx, hvx, rfl⟩ := hx
    obtain ⟨vy, hvy, rfl⟩ := hy
    have hsx := h3 vx hvx
    have hsy := h3 vy hvy
    cases hox : vx.nameAttr with
    | none => rw [hox] at hsx; cases hsx
    | some a =>
        cases hoy : vy.nameAttr with
        | none => rw [hoy] at hsy; cases hsy
        | some b =>
            rw [hox, hoy] at hxy
            simp only [Option.getD_some, Option.some.injEq] at hxy
            rw [hxy]

/-- Witness for `expandVsys_per_vsys_records` at a two-vsys entry. -/
theorem expandVsys_per_vsys_records_witness :
    (expandEntry (Xml.mk "entry" (some "0001") none
        [Xml.mk "serial" none (some "0001") [],
         Xml.mk "vsys" none none
           [Xml.mk "entry" (some "vsys1") none
              [Xml.mk "display-name" none (some "A") []],
            Xml.mk "entry" (some "vsys2") none
              [Xml.mk "display-name" none (some "B") []]]])).map
      (fun r => r.findtext1 "vsys_id") = [some "vsys1", some "vsys2"] := by
  have h := expandVsys_per_vsys_records (Xml.mk "entry" (some "0001") none
        [Xml.mk "serial" none (some "0001") [],
         Xml.mk "vsys" none none
           [Xml.mk "entry" (some "vsys1") none
              [Xml.mk "display-name" none (some "A") []],
            Xml.mk "entry" (some "vsys2") none
              [Xml.mk "display-name" none (some "B") []]]])
    (by decide) (by decide) (by decide)
  rw [h.2.2.2.1]
  rfl

/-- C1 counterexample: in the expansion of an entry with vsys entries
`vsys1`, `vsys2`, both produced records still carry the original combined
two-element vsys list, refuting the claim that no record retains it. -/
theorem expandVsys_retains_vsys_list_cex :
    (expandVsys [Xml.mk "entry" (some "0001") none
        [Xml.mk "serial" none (some "0001") [],
         Xml.mk "vsys" none none
           [Xml.mk "entry" (some "vsys1") none
              [Xml.mk "display-name" none (some "A") []],
            Xml.mk "entry" (some "vsys2") none
              [Xml.mk "display-name" none (some "B") []]]]]).map
      (fun r => (r.findall2 "vsys" "entry").map Xml.nameAttr)
    = [[some "vsys1", some "vsys2"], [some "vsys1", some "vsys2"]] := by
  rfl

/-! ## C3 and C7: reconciliation loop properties -/

theorem processVsys_fst_subset (oc : Bool) (reqs : List ReqDevice)
    (fe : Option Xml) (ds : Option String) (st : List FW × List FW)
    (dv : Option String) :
    ∀ x ∈ (processVsys oc reqs fe ds st dv).1, x ∈ st.1 := by
  intro x hx
  unfold processVsys at hx
  split at hx
  · exact hx
  · split at hx
    · split at hx
      · exact hx
      · exact hx
    · exact (List.eraseP_sublist _).subset hx

theorem processVsys_snd_mem (oc : Bool) (reqs : List ReqDevice)
    (fe : Option Xml) (ds : Option String) (st : List FW × List FW)
    (dv : Option String) :
    ∀ x ∈ st.2, x ∈ (processVsys oc reqs fe ds st dv).2 := by
  intro x hx
  unfold processVsys
  split
  · exact hx
  · split
    · split
      · exact hx
      · exact List.mem_append_left _ hx
    · exact List.mem_append_left _ hx

theorem foldVsys_fst_subset (oc : Bool) (reqs : List ReqDevice)
    (fe : Option Xml) (ds : Option String) (vl : List (Option String)) :
    ∀ st, ∀ x ∈ (vl.foldl (processVsys oc reqs fe ds) st).1, x ∈ st.1 := by
  induction vl with
  | nil => intro st x hx; exact hx
  | cons a l ih =>
      intro st x hx
      exact processVsys_fst_subset oc reqs fe ds st a x (ih _ x hx)

theorem foldVsys_snd_mem (oc : Bool) (reqs : List ReqDevice)
    (fe : Option Xml) (ds : Option String) (vl : List (Option String)) :
    ∀ st, ∀ x ∈ st.2, x ∈ (vl.foldl (processVsys oc reqs fe ds) st).2 := by
  induction vl with
  | nil => intro st x hx; exact hx
  | cons a l ih =>
      intro st x hx
      exact ih _ x (processVsys_snd_mem oc reqs fe ds st a x hx)

theorem processVsys_placeholder (fe : Option Xml) (ds v : Option String)
    (st : List FW × List FW)
    (hnm : ∀ fw ∈ st.1, matchesFW ds v fw = false) :
    processVsys false [] fe ds st v = (st.1, st.2 ++ [⟨ds, v, none⟩]) := by
  have hfind : st.1.find? (matchesFW ds v) = none :=
    List.find?_eq_none.mpr (by intro x hx; simp [hnm x hx])
  simp [processVsys, vsysSkip, hfind]

theorem foldVsys_placeholder (fe : Option Xml) (ds v : Option String)
    (vl : List (Option String)) (hv : v ∈ vl) :
    ∀ st, (∀ fw ∈ st.1, matchesFW ds v fw = false) →
      (⟨ds, v, none⟩ : FW) ∈ (vl.foldl (processVsys false [] fe ds) st).2 := by
  induction vl with
  | nil => cases hv
  | cons a l ih =>
      intro st hnm
      simp only [List.foldl_cons]
      rcases List.mem_cons.mp hv with rfl | hv2
      · apply foldVsys_snd_mem
        rw [processVsys_placeholder fe ds v st hnm]
        simp
      · apply ih hv2
        intro fw hfw
        exact hnm fw (processVsys_fst_subset false [] fe ds st a fw hfw)

theorem processSerial_fst_subset (cfg : List Xml) (oc : Bool)
    (reqs : List ReqDevice) (dn : Option String) (st : List FW × List FW)
    (s : Option String) :
    ∀ x ∈ (processSerial cfg oc reqs dn st s).1, x ∈ st.1 := by
  intro x hx
  unfold processSerial at hx
  split at hx
  · exact hx
  · exact foldVsys_fst_subset oc reqs _ s _ st x hx

theorem processSerial_snd_mem (cfg : List Xml) (oc : Bool)
    (reqs : List ReqDevice) (dn : Option String) (st : List FW × List FW)
    (s : Option String) :
    ∀ x ∈ st.2, x ∈ (processSerial cfg oc reqs dn st s).2 := by
  intro x hx
  unfold processSerial
  split
  · exact hx
  · exact foldVsys_snd_mem oc reqs _ s _ st x hx

theorem processSerial_placeholder (cfg : List Xml) (dn ds v : Option String)
    (st : List FW × List FW)
    (hv : v ∈ (if (allDgVsys cfg dn ds).isEmpty then [some "vsys1"]
               else allDgVsys cfg dn ds))
    (hnm : ∀ fw ∈ st.1, matchesFW ds v fw = false) :
    (⟨ds, v, none⟩ : FW) ∈ (processSerial cfg false [] dn st ds).2 := by
  unfold processSerial
  simp only [List.isEmpty_nil, Bool.not_true, Bool.false_and, Bool.false_eq_true,
    if_false]
  exact foldVsys_placeholder _ ds v _ hv st hnm

theorem foldSerial_fst_subset (cfg : List Xml) (oc : Bool)
    (reqs : List ReqDevice) (dn : Option String) (sl : List (Option String)) :
    ∀ st, ∀ x ∈ (sl.foldl (processSerial cfg oc reqs dn) st).1, x ∈ st.1 := by
  induction sl with
  | nil => intro st x hx; exact hx
  | cons a l ih =>
      intro st x hx
      exact processSerial_fst_subset cfg oc reqs dn st a x (ih _ x hx)

theorem foldSerial_snd_mem (cfg : List Xml) (oc : Bool)
    (reqs : List ReqDevice) (dn : Option String) (sl : List (Option String)) :
    ∀ st, ∀ x ∈ st.2, x ∈ (sl.foldl (processSerial cfg oc reqs dn) st).2 := by
  induction sl with
  | nil => intro st x hx; exact hx
  | cons a l ih =>
      intro st x hx
      exact ih _ x (processSerial_snd_mem cfg oc reqs dn st a x hx)

theorem foldSerial_placeholder (cfg : List Xml) (dn ds v : Option String)
    (sl : List (Option String)) (hs : ds ∈ sl)
    (hv : v ∈ (if (allDgVsys cfg dn ds).isEmpty then [some "vsys1"]
               else allDgVsys cfg dn ds)) :
    ∀ st, (∀ fw ∈ st.1, matchesFW ds v fw = false) →
      (⟨ds, v, none⟩ : FW) ∈ (sl.foldl (processSerial cfg false [] dn) st).2 := by
  induction sl with
  | nil => cases hs
  | cons a l ih =>
      intro st hnm
      simp only [List.foldl_cons]
      rcases List.mem_cons.mp hs with rfl | hs2
      · apply foldSerial_snd_mem
        exact processSerial_placeholder cfg dn ds v st hv hnm
      · apply ih hs2
        intro fw hfw
        exact hnm fw (processSerial_fst_subset cfg false [] dn st a fw hfw)

theorem dgfold_acc1_mem (cfg : List Xml) (reqs : List ReqDevice) (oc : Bool)
    (names : List (Option String)) (p : Option String × List FW) :
    ∀ acc, p ∈ acc.1 →
      p ∈ (names.foldl (processDGStep cfg reqs oc) acc).1 := by
  induction names with
  | nil => intro acc h; exact h
  | cons a l ih =>
      intro acc h
      simp only [List.foldl_cons]
      exact ih _ (List.mem_append_left _ h)

theorem dgfold_placeholder (cfg : List Xml) (dn ds v : Option String)
    (names : List (Option String)) (hdn : dn ∈ names)
    (hds : ds ∈ dgSerials cfg dn)
    (hv : v ∈ (if (allDgVsys cfg dn ds).isEmpty then [some "vsys1"]
               else allDgVsys cfg dn ds)) :
    ∀ acc, (∀ fw ∈ acc.2, matchesFW ds v fw = false) →
      ∃ kids, (dn, kids) ∈ (names.foldl (processDGStep cfg [] false) acc).1
        ∧ (⟨ds, v, none⟩ : FW) ∈ kids := by
  induction names with
  | nil => cases hdn
  | cons a l ih =>
      intro acc hnm
      simp only [List.foldl_cons]
      rcases List.mem_cons.mp hdn with rfl | hdn2
      · refine ⟨((dgSerials cfg dn).foldl (processSerial cfg false [] dn)
            (acc.2, [])).2, ?_, ?_⟩
        · apply dgfold_acc1_mem
          simp [processDGStep]
        · exact foldSerial_placeholder cfg dn ds v _ hds hv (acc.2, []) hnm
      · apply ih hdn2
        intro fw hfw
        unfold processDGStep at hfw
        exact hnm fw (foldSerial_fst_subset cfg false [] a _ (acc.2, []) fw hfw)

/-- C3: a device-group membership (serial, vsys) matching no constructed
firewall instance does not raise with `only_connected=false` (the loop is a
total function); instead a placeholder firewall carrying only that serial and
vsys — its shared-policy status never set — is attached as a child of the
device-group. -/
theorem refresh_placeholder_for_unmatched (cfg : List Xml) (instances : List FW)
    (dn ds v : Option String)
    (hdn : dn ∈ dgNamesFromConfig cfg)
    (hds : ds ∈ dgSerials cfg dn)
    (hv : v ∈ (if (allDgVsys cfg dn ds).isEmpty then [some "vsys1"]
               else allDgVsys cfg dn ds))
    (hnm : ∀ fw ∈ instances, matchesFW ds v fw = false) :
    ∃ kids, (dn, kids) ∈ (reconcileDGs cfg [] false instances).1
      ∧ (⟨ds, v, none⟩ : FW) ∈ kids :=
  dgfold_placeholder cfg dn ds v _ hdn hds hv ([], instances) hnm

/-- Witness for `refresh_placeholder_for_unmatched`: group DG1 references
serial S1 which matches no firewall instance; a (S1, vsys1) placeholder is
attached under DG1. -/
theorem refresh_placeholder_for_unmatched_witness :
    ∃ kids, (some "DG1", kids) ∈
        (reconcileDGs
          [Xml.mk "entry" (some "DG1") none
            [Xml.mk "devices" none none
              [Xml.mk "entry" (some "S1") none []]]] [] false []).1
      ∧ (⟨some "S1", some "vsys1", none⟩ : FW) ∈ kids :=
  refresh_placeholder_for_unmatched
    [Xml.mk "entry" (some "DG1") none
      [Xml.mk "devices" none none
        [Xml.mk "entry" (some "S1") none []]]] []
    (some "DG1") (some "S1") (some "vsys1")
    (by decide) (by decide) (by decide) (by decide)

theorem foldVsys_empty_instances (fe : Option Xml) (ds : Option String)
    (vl : List (Option String)) :
    ∀ kids, vl.foldl (processVsys false [] fe ds) ([], kids)
      = ([], kids ++ vl.map (fun v => (⟨ds, v, none⟩ : FW))) := by
  induction vl with
  | nil => intro kids; simp
  | cons a l ih =>
      intro kids
      simp only [List.foldl_cons]
      have hstep : processVsys false [] fe ds ([], kids) a
          = ([], kids ++ [⟨ds, a, none⟩]) :=
        processVsys_placeholder fe ds a ([], kids) (by intro fw h; cases h)
      rw [hstep, ih]
      simp

/-- C7: with no matching firewall instances and `only_connected=false`, a
device-group membership entry that declares no per-vsys sub-entries is
reconciled as exactly the single vsys `vsys1`; when per-vsys sub-entries are
declared, exactly the declared vsys are used. -/
theorem refresh_vsys_membership (cfg : List Xml) (dn ds : Option String)
    (h1 : dgNamesFromConfig cfg = [dn])
    (h2 : dgSerials cfg dn = [ds]) :
    (reconcileDGs cfg [] false []).1 =
      [(dn, (if (allDgVsys cfg dn ds).isEmpty then [some "vsys1"]
             else allDgVsys cfg dn ds).map
               (fun v => (⟨ds, v, none⟩ : FW)))] := by
  unfold reconcileDGs
  rw [h1]
  simp only [List.foldl_cons, List.foldl_nil]
  unfold processDGStep
  rw [h2]
  simp only [List.foldl_cons, List.foldl_nil]
  unfold processSerial
  simp only [List.isEmpty_nil, Bool.not_true, Bool.false_and, Bool.false_eq_true,
    if_false]
  rw [foldVsys_empty_instances]
  simp

/-- Witness for `refresh_vsys_membership`: DG1 references S1 with no declared
vsys; the reconciled group holds exactly one (S1, vsys1) placeholder. -/
theorem refresh_vsys_membership_witness :
    (reconcileDGs
      [Xml.mk "entry" (some "DG1") none
        [Xml.mk "devices" none none
          [Xml.mk "entry" (some "S1") none []]]] [] false []).1 =
      [(some "DG1", [(⟨some "S1", some "vsys1", none⟩ : FW)])] := by
  have h := refresh_vsys_membership
    [Xml.mk "entry" (some "DG1") none
      [Xml.mk "devices" none none
        [Xml.mk "entry" (some "S1") none []]]]
    (some "DG1") (some "S1") (by decide) (by decide)
  simpa using h

/-! ## C6: `add=True` merge into the live tree (panorama.py 390-402)

With `add=True`, each reconciled device-group whose name matches an existing
`DeviceGroup` child of the Panorama gets its Firewall children replaced by the
newly reconciled set (`found_dg.removeall(Firewall); found_dg.extend(dg.children)`);
a group with no live counterpart is added; finally the Panorama's own direct
Firewall children are replaced by the ungrouped set. -/

/-- A child node of the Panorama configuration tree (or of a DeviceGroup
node), as far as the `add=True` branch observes it: a Firewall instance, a
DeviceGroup with its own children, or any other child object. -/
inductive PNode where
  | fw (f : FW)
  | dgNode (name : Option String) (children : List PNode)
  | other (tag : String)

def isFWNode : PNode → Bool
  | .fw _ => true
  | _ => false

/-- `removeall(Firewall)`: drop the direct Firewall children, keep the rest in
order. -/
def removeallFW (cs : List PNode) : List PNode :=
  cs.filter (fun c => !isFWNode c)

/-- `self.find(name, DeviceGroup)`: the first DeviceGroup child with the given
name (returning its child list). -/
def firstDG : List PNode → Option String → Option (List PNode)
  | [], _ => none
  | .dgNode m ch :: cs, n => if m = n then some ch else firstDG cs n
  | _ :: cs, n => firstDG cs n

/-- `found_dg.removeall(Firewall); found_dg.extend(dg.children)` applied to
the first DeviceGroup child with the given name. -/
def updateFirstDG : List PNode → Option String → List FW → List PNode
  | [], _, _ => []
  | .dgNode m ch :: cs, n, newFws =>
      if m = n then .dgNode m (removeallFW ch ++ newFws.map .fw) :: cs
      else .dgNode m ch :: updateFirstDG cs n newFws
  | c :: cs, n, newFws => c :: updateFirstDG cs n newFws

/-- One iteration of `for dg in devicegroup_instances` (panorama.py 391-399). -/
def refreshAddStep (cs : List PNode) (g : Option String × List FW) : List PNode :=
  if (firstDG cs g.1).isSome then updateFirstDG cs g.1 g.2
  else cs ++ [.dgNode g.1 (g.2.map .fw)]

/-- The whole `add=True` branch (panorama.py 390-402): merge the reconciled
device-groups into the Panorama's child list, then replace the Panorama's
direct Firewall children by the ungrouped firewall instances. -/
def refreshAdd (cs : List PNode) (dgs : List (Option String × List FW))
    (fws : List FW) : List PNode :=
  removeallFW (dgs.foldl refreshAddStep cs) ++ fws.map .fw

theorem firstDG_split (xs ys : List PNode) (n : Option String) :
    firstDG (xs ++ ys) n =
      match firstDG xs n with
      | some x => some x
      | none => firstDG ys n := by
  induction xs with
  | nil => rfl
  | cons c cs ih =>
      cases c with
      | fw f => simpa [firstDG] using ih
      | other t => simpa [firstDG] using ih
      | dgNode m ch =>
          by_cases h : m = n
          · simp [firstDG, h]
          · simp [firstDG, h, ih]

theorem firstDG_removeallFW (cs : List PNode) (n : Option String) :
    firstDG (removeallFW cs) n = firstDG cs n := by
  induction cs with
  | nil => rfl
  | cons c cs ih =>
      cases c with
      | fw f => simpa [removeallFW, firstDG, isFWNode] using ih
      | other t => simpa [removeallFW, firstDG, isFWNode] using ih
      | dgNode m ch =>
          by_cases h : m = n
          · simp [removeallFW, firstDG, isFWNode, h]
          · simpa [removeallFW, firstDG, isFWNode, h] using ih

theorem firstDG_update_self (cs : List PNode) (n : Option String)
    (newFws : List FW) (orig : List PNode) (h : firstDG cs n = some orig) :
    firstDG (updateFirstDG cs n newFws) n
      = some (removeallFW orig ++ newFws.map .fw) := by
  induction cs with
  | nil => cases h
  | cons c cs ih =>
      cases c with
      | fw f =>
          simp only [firstDG] at h
          simpa [updateFirstDG, firstDG] using ih h
      | other t =>
          simp only [firstDG] at h
          simpa [updateFirstDG, firstDG] using ih h
      | dgNode m ch =>
          by_cases hm : m = n
          · simp only [firstDG, if_pos hm] at h
            injection h with h2
            subst h2
            simp [updateFirstDG, firstDG, if_pos hm]
          · simp only [firstDG, if_neg hm] at h
            simpa [updateFirstDG, firstDG, if_neg hm] using ih h

theorem firstDG_update_other (cs : List PNode) (m n : Option String)
    (newFws : List FW) (h : m ≠ n) :
    firstDG (updateFirstDG cs m newFws) n = firstDG cs n := by
  induction cs with
  | nil => rfl
  | cons c cs ih =>
      cases c with
      | fw f => simpa [updateFirstDG, firstDG] using ih
      | other t => simpa [updateFirstDG, firstDG] using ih
      | dgNode k ch =>
          by_cases hk : k = m
          · subst hk
            have hkn : ¬k = n := h
            simp [updateFirstDG, firstDG, hkn]
          · by_cases hkn : k = n
            · simp [updateFirstDG, firstDG, hk, hkn, Ne.symm h]
            · simpa [updateFirstDG, firstDG, hk, hkn] using ih

theorem foldAdd_preserve (rest : List (Option String × List FW))
    (n : Option String) (val : List PNode)
    (hnot : ∀ g ∈ rest, g.1 ≠ n) :
    ∀ cs, firstDG cs n = some val →
      firstDG (rest.foldl refreshAddStep cs) n = some val := by
  induction rest with
  | nil => intro cs h; exact h
  | cons g l ih =>
      intro cs h
      simp only [List.foldl_cons]
      apply ih (fun g2 hg2 => hnot g2 (List.mem_cons_of_mem g hg2))
      unfold refreshAddStep
      split
      · rw [firstDG_update_other _ _ _ _ (hnot g (List.mem_cons_self g l))]
        exact h
      · rw [firstDG_split, h]

theorem foldAdd_mem_update (dgs : List (Option String × List FW))
    (n : Option String) (newFws : List FW)
    (hmem : (n, newFws) ∈ dgs) (hnd : (dgs.map Prod.fst).Nodup) :
    ∀ cs orig, firstDG cs n = some orig →
      firstDG (dgs.foldl refreshAddStep cs) n
        = some (removeallFW orig ++ newFws.map .fw) := by
  induction dgs with
  | nil => cases hmem
  | cons g l ih =>
      intro cs orig h
      simp only [List.foldl_cons]
      have hnd' : (g.1 :: l.map Prod.fst).Nodup := hnd
      have hnd2 := List.nodup_cons.mp hnd'
      rcases List.mem_cons.mp hmem with heq | hmem2
      · subst heq
        have hstep : firstDG (refreshAddStep cs (n, newFws)) n
            = some (removeallFW orig ++ newFws.map .fw) := by
          unfold refreshAddStep
          rw [if_pos (by rw [h]; rfl)]
          exact firstDG_update_self cs n newFws orig h
        refine foldAdd_preserve l n _ ?_ _ hstep
        intro g2 hg2 he
        have hin : g2.1 ∈ List.map Prod.fst l := List.mem_map_of_mem Prod.fst hg2
        rw [he] at hin
        exact hnd2.1 hin
      · have hg1 : g.1 ≠ n := by
          intro he
          apply hnd2.1
          rw [he]
          exact List.mem_map_of_mem Prod.fst hmem2
        have hstep : firstDG (refreshAddStep cs g) n = some orig := by
          unfold refreshAddStep
          split
          · rw [firstDG_update_other _ _ _ _ hg1]; exact h
          · rw [firstDG_split, h]
        exact ih hmem2 hnd2.2 _ _ hstep

theorem filter_isFW_removeallFW (cs : List PNode) :
    (removeallFW cs).filter isFWNode = [] := by
  induction cs with
  | nil => rfl
  | cons c cs ih =>
      cases c with
      | fw f => simp [removeallFW, isFWNode, ih]
      | other t => simp [removeallFW, List.filter_cons, isFWNode, ih]
      | dgNode m ch => simp [removeallFW, List.filter_cons, isFWNode, ih]

theorem filter_isFW_mapfw (fws : List FW) :
    (fws.map PNode.fw).filter isFWNode = fws.map PNode.fw := by
  induction fws with
  | nil => rfl
  | cons f l ih => simp [List.filter_cons, isFWNode, ih]

theorem removeallFW_append (xs ys : List PNode) :
    removeallFW (xs ++ ys) = removeallFW xs ++ removeallFW ys := by
  simp [removeallFW]

theorem removeallFW_mapfw (fws : List FW) :
    removeallFW (fws.map PNode.fw) = [] := by
  induction fws with
  | nil => rfl
  | cons f l ih => simp [removeallFW, List.filter_cons, isFWNode, ih]

theorem removeallFW_idem (cs : List PNode) :
    removeallFW (removeallFW cs) = removeallFW cs := by
  simp [removeallFW, List.filter_filter]

/-- C6: with `add=True`, a reconciled device-group whose name matches an
existing DeviceGroup child has exactly its Firewall children replaced by the
newly reconciled set — its non-Firewall children are untouched — and the
root's own Firewall children are fully replaced by the ungrouped set. -/
theorem refreshAdd_replaces_firewalls (cs : List PNode)
    (dgs : List (Option String × List FW)) (fws newFws : List FW)
    (n : Option String) (orig : List PNode)
    (hmem : (n, newFws) ∈ dgs)
    (hnd : (dgs.map Prod.fst).Nodup)
    (hfound : firstDG cs n = some orig) :
    firstDG (refreshAdd cs dgs fws) n
        = some (removeallFW orig ++ newFws.map PNode.fw)
    ∧ (removeallFW orig ++ newFws.map PNode.fw).filter isFWNode
        = newFws.map PNode.fw
    ∧ removeallFW (removeallFW orig ++ newFws.map PNode.fw) = removeallFW orig
    ∧ (refreshAdd cs dgs fws).filter isFWNode = fws.map PNode.fw := by
  refine ⟨?_, ?_, ?_, ?_⟩
  · unfold refreshAdd
    rw [firstDG_split, firstDG_removeallFW,
      foldAdd_mem_update dgs n newFws hmem hnd cs orig hfound]
  · rw [List.filter_append, filter_isFW_removeallFW, filter_isFW_mapfw,
      List.nil_append]
  · rw [removeallFW_append, removeallFW_idem, removeallFW_mapfw,
      List.append_nil]
  · unfold refreshAdd
    rw [List.filter_append, filter_isFW_removeallFW, filter_isFW_mapfw,
      List.nil_append]

/-- Witness for `refreshAdd_replaces_firewalls`: a live tree holding DG1 with
one stale firewall and one non-firewall child; the reconciled DG1 brings one
new firewall, and one firewall stays ungrouped. -/
theorem refreshAdd_replaces_firewalls_witness :
    firstDG (refreshAdd
        [.dgNode (some "DG1")
           [.fw ⟨some "OLD", some "vsys1", none⟩, .other "address"],
         .fw ⟨some "ROOTOLD", some "vsys1", none⟩]
        [(some "DG1", [⟨some "S1", some "vsys1", none⟩])]
        [⟨some "S2", some "vsys2", none⟩]) (some "DG1")
      = some [.other "address", .fw ⟨some "S1", some "vsys1", none⟩]
    ∧ (refreshAdd
        [.dgNode (some "DG1")
           [.fw ⟨some "OLD", some "vsys1", none⟩, .other "address"],
         .fw ⟨some "ROOTOLD", some "vsys1", none⟩]
        [(some "DG1", [⟨some "S1", some "vsys1", none⟩])]
        [⟨some "S2", some "vsys2", none⟩]).filter isFWNode
      = [.fw ⟨some "S2", some "vsys2", none⟩] := by
  have h := refreshAdd_replaces_firewalls
    [.dgNode (some "DG1")
       [.fw ⟨some "OLD", some "vsys1", none⟩, .other "address"],
     .fw ⟨some "ROOTOLD", some "vsys1", none⟩]
    [(some "DG1", [⟨some "S1", some "vsys1", none⟩])]
    [⟨some "S2", some "vsys2", none⟩]
    [⟨some "S1", some "vsys1", none⟩]
    (some "DG1")
    [.fw ⟨some "OLD", some "vsys1", none⟩, .other "address"]
    (List.mem_singleton_self _) (by simp) rfl
  exact ⟨h.1, h.2.2.2⟩

/-! ## The `Interface` class (network.py 43-234)

`Interface` is a plain (non-PanObject) class.  Its constructor mutually
normalizes `name` and `tag`; its `zone` setter, `apply` and `delete` issue
remote API calls through `self.pan_device.xapi`; `_xpath` resolves the
interface's configuration path, special-casing ethernet sub-units.

The `pandevice` module constants (`XPATH_INTERFACES`, `XPATH_ZONE`,
`XPATH_DEFAULT_VROUTER_INTERFACES`) are defined outside these sources, so the
definitions below take them as parameters; no claim depends on their values. -/

/-- Tail test of `re.search(r"\.\d+$", s)`: the string ends with a dot
followed by one or more digits.  Python's `$` also matches just before a
single trailing newline, which is modelled too; `\d` is modelled as the ASCII
digits the data actually uses. -/
def endsWithDotDigits (s : String) : Bool :=
  let rev := (if s.data.getLast? = some (Char.ofNat 10)
              then s.data.dropLast else s.data).reverse
  match rev.dropWhile Char.isDigit with
  | c :: _ => c == Char.ofNat 46 && !(rev.takeWhile Char.isDigit).isEmpty
  | [] => false

/-- The name/tag normalization performed at the end of `Interface.__init__`
(network.py 77-80).  The incoming `tag` is the already-stringified `_tag`
(the `tag` setter applies `str`).  Line 77: a given tag is appended to a name
that does not already end in `.digits`; line 79: with no tag given, a
dot-suffixed name has its second dot-separated field stored as the tag. -/
def interfaceInitNameTag (name : String) (tag : Option String) :
    String × Option String :=
  let n := if tag ≠ none ∧ ¬endsWithDotDigits name
           then name ++ "." ++ tag.getD "" else name
  let t := if tag = none ∧ endsWithDotDigits n
           then some ((n.splitOn ".").getD 1 "") else tag
  (n, t)

/-- The trailing digit run after the last dot of a dot-suffixed name (the
digits matched by `\.\d+$`). -/
def dotSuffix (s : String) : String :=
  String.mk (s.data.reverse.takeWhile Char.isDigit).reverse

/-- Match of the pattern `(ethernet\d/\d{1,3})\.\d{1,4}` at the start of a
character list, returning group 1.  After `ethernet`, one digit and a slash,
the `\d{1,3}` group is followed by a literal dot, so greedy matching with
backtracking succeeds exactly when the maximal digit run has length 1-3 and is
followed by a dot and at least one digit. -/
def ethSubMatchAt (cs : List Char) : Option String :=
  match cs.splitAt 8 with
  | (pre, rest) =>
      if pre ≠ "ethernet".data then none
      else
        match rest with
        | d :: rest2 =>
            if d.isDigit then
              match rest2 with
              | c :: rest3 =>
                  if c = Char.ofNat 47 then   -- the slash
                    let run := rest3.takeWhile Char.isDigit
                    let after := rest3.dropWhile Char.isDigit
                    if 1 ≤ run.length ∧ run.length ≤ 3 then
                      match after with
                      | dot :: rest4 =>
                          if dot = Char.ofNat 46
                              ∧ 1 ≤ (rest4.takeWhile Char.isDigit).length then
                            some (String.mk ("ethernet".data ++ [d, c] ++ run))
                          else none
                      | [] => none
                    else none
                  else none
              | [] => none
            else none
        | [] => none

/-- `re.search`: try the pattern at each start position, leftmost match wins. -/
def ethSubSearch : List Char → Option String
  | [] => none
  | c :: cs =>
      match ethSubMatchAt (c :: cs) with
      | some g => some g
      | none => ethSubSearch cs

/-- The parent interface, as `_xpath` observes it (`self.parent.name`,
`self.parent.mode`). -/
structure ParentIf where
  name : String
  mode : String
deriving DecidableEq

/-- The `Interface` object state (network.py 49-80 attributes used by the
modelled methods).  `panDevice` records whether `self.pan_device` is set. -/
structure Interface where
  name : String
  type : String
  mode : String
  tag : Option String
  zone : Option String
  subnets : List String
  router : Option String
  parent : Option ParentIf
  panDevice : Bool
  applyChanges : Bool
  state : Option String
deriving DecidableEq

/-- A remote API call observed at the `xapi` boundary. -/
inductive ApiCall where
  | set (xpath : String) (element : String)
  | edit (xpath : String) (element : Xml)
  | delete (xpath : String)

/-- Append the layer3 subnet configuration and the tag to a settings element
(network.py 223-232). -/
def applyIfSettings (i : Interface) (settings : Xml) : Xml :=
  let s1 :=
    if i.mode == "layer3" && !i.subnets.isEmpty then
      settings.addChild
        (.mk "ip" none none (i.subnets.map (fun sn => .mk "entry" (some sn) none [])))
    else settings
  if strTruthy i.tag then
    s1.addChild (.mk "tag" none i.tag [])
  else s1

/-- `Interface._xpath` (network.py 194-234): the resolved configuration xpath
and the element to write there.  Ethernet interfaces with a parent, or whose
name matches the sub-unit pattern, resolve under the physical interface's
`units` path; otherwise the generic `entry[@name=...]` path with the mode as a
settings sub-element.  Unknown types raise `PanDeviceError`. -/
def Interface.xpathElem (xpathInterfaces : String) (i : Interface) :
    Except String (String × Xml) :=
  let xpath := xpathInterfaces ++ "/" ++ i.type
  if i.type == "ethernet" then
    match i.parent with
    | some p =>
        let xp := xpath ++ "/entry[@name='" ++ p.name ++ "']/" ++ p.mode
          ++ "/units/entry[@name='" ++ i.name ++ "']"
        let root : Xml := .mk "entry" (some i.name) none []
        .ok (xp, applyIfSettings i root)
    | none =>
        match ethSubSearch i.name.data with
        | some base =>
            let xp := xpath ++ "/entry[@name='" ++ base ++ "']/" ++ i.mode
              ++ "/units/entry[@name='" ++ i.name ++ "']"
            let root : Xml := .mk "entry" (some i.name) none []
            .ok (xp, applyIfSettings i root)
        | none =>
            let xp := xpath ++ "/entry[@name='" ++ i.name ++ "']"
            -- root = Element("entry"); settings = SubElement(root, mode):
            -- the subnet/tag configuration lands inside the mode element
            let settings : Xml := applyIfSettings i (.mk i.mode none none [])
            .ok (xp, .mk "entry" (some i.name) none [settings])
  else if i.type == "vlan" then
    let xp := xpath ++ "/units/entry[@name='" ++ i.name ++ "']"
    let root : Xml := .mk "entry" (some i.name) none []
    .ok (xp, applyIfSettings i root)
  else
    .error ("Unknown interface type: " ++ i.type)

/-- `Interface.apply` (network.py 156-173): no device, no calls; otherwise
edit the interface element, then add the zone membership, then the
virtual-router membership (`set_config_changed` is not an API call). -/
def Interface.applyCalls (xpathInterfaces xpathZone xpathVrouterIf : String)
    (i : Interface) : Except String (List ApiCall) :=
  if !i.panDevice then .ok []
  else
    match i.xpathElem xpathInterfaces with
    | .error e => .error e
    | .ok (xp, el) =>
        .ok ([ApiCall.edit xp el]
          ++ (match i.zone with
              | some z =>
                  if !z.isEmpty then
                    [ApiCall.set (xpathZone ++ "/entry[@name='" ++ z
                        ++ "']/network/layer3")
                      ("<member>" ++ i.name ++ "</member>")]
                  else []
              | none => [])
          ++ (if strTruthy i.router then
                [ApiCall.set xpathVrouterIf ("<member>" ++ i.name ++ "</member>")]
              else []))

/-- `Interface.delete` (network.py 175-192): no device, no calls; otherwise
remove the virtual-router membership, then the zone membership, then delete
the interface element itself.  In the source the interface xpath is computed
after the membership deletes were already issued, so an unknown-type error
there would leave them applied; the claims' interfaces resolve successfully. -/
def Interface.deleteCalls (xpathInterfaces xpathZone xpathVrouterIf : String)
    (i : Interface) : Except String (List ApiCall) :=
  if !i.panDevice then .ok []
  else
    let memberOps :=
      (if strTruthy i.router then
         [ApiCall.delete (xpathVrouterIf ++ "/member[text()='" ++ i.name ++ "']")]
       else [])
      ++ (match i.zone with
          | some z =>
              if !z.isEmpty then
                [ApiCall.delete (xpathZone ++ "/entry[@name='" ++ z
                    ++ "']/network/layer3/member[text()='" ++ i.name ++ "']")]
              else []
          | none => [])
    match i.xpathElem xpathInterfaces with
    | .error e => .error e
    | .ok (xp, _) => .ok (memberOps ++ [ApiCall.delete xp])

/-- The `zone` property setter (network.py 131-148): equal value returns
immediately; otherwise the zone changes and, with `apply_changes`, the old
zone membership is deleted and the new one set. -/
def Interface.setZone (xpathZone : String) (i : Interface) (value : Option String) :
    Interface × List ApiCall :=
  if i.zone = value then (i, [])
  else
    let oldZone := i.zone
    let i2 := { i with zone := value }
    let calls :=
      if i.applyChanges then
        (match oldZone with
         | some oz =>
             [ApiCall.delete (xpathZone ++ "/entry[@name='" ++ oz
                 ++ "']/network/layer3/member[text()='" ++ i.name ++ "']")]
         | none => [])
        ++ (match value with
            | some nz =>
                [ApiCall.set (xpathZone ++ "/entry[@name='" ++ nz
                    ++ "']/network/layer3")
                  ("<member>" ++ i.name ++ "</member>")]
            | none => [])
      else []
    (i2, calls)

/-! ## C4: ethernet xpath resolution -/

/-- C4: for ethernet interfaces the kind-specific alternate-parent patterns
are tried before the generic one: with a parent the xpath is the parent's
units path; with no parent but a name matching the
`ethernet<slot>/<port>.<unit>` sub-unit pattern it is the matched physical
interface's units path; otherwise it is the generic top-level entry path. -/
theorem interface_xpath_ethernet (XI : String) (i : Interface)
    (ht : i.type = "ethernet") :
    (∀ p, i.parent = some p →
      Except.map Prod.fst (i.xpathElem XI) =
        .ok (XI ++ "/" ++ i.type ++ "/entry[@name='" ++ p.name ++ "']/"
          ++ p.mode ++ "/units/entry[@name='" ++ i.name ++ "']"))
    ∧ (i.parent = none → ∀ base, ethSubSearch i.name.data = some base →
      Except.map Prod.fst (i.xpathElem XI) =
        .ok (XI ++ "/" ++ i.type ++ "/entry[@name='" ++ base ++ "']/"
          ++ i.mode ++ "/units/entry[@name='" ++ i.name ++ "']"))
    ∧ (i.parent = none → ethSubSearch i.name.data = none →
      Except.map Prod.fst (i.xpathElem XI) =
        .ok (XI ++ "/" ++ i.type ++ "/entry[@name='" ++ i.name ++ "']")) := by
  refine ⟨?_, ?_, ?_⟩
  · intro p hp
    simp [Interface.xpathElem, ht, hp, Except.map]
  · intro hp base hb
    simp [Interface.xpathElem, ht, hp, hb, Except.map]
  · intro hp hb
    simp [Interface.xpathElem, ht, hp, hb, Except.map]

/-- Witness for `interface_xpath_ethernet`: the sub-unit `ethernet1/5.100`
with no parent resolves under the physical `ethernet1/5` units path. -/
theorem interface_xpath_ethernet_witness :
    Except.map Prod.fst
      ((⟨"ethernet1/5.100", "ethernet", "layer3", none, none, [], some "default",
          none, true, false, none⟩ : Interface).xpathElem "/network/interface") =
      .ok ("/network/interface" ++ "/" ++ "ethernet" ++ "/entry[@name='"
        ++ "ethernet1/5" ++ "']/" ++ "layer3" ++ "/units/entry[@name='"
        ++ "ethernet1/5.100" ++ "']") :=
  (interface_xpath_ethernet "/network/interface"
    ⟨"ethernet1/5.100", "ethernet", "layer3", none, none, [], some "default",
      none, true, false, none⟩ rfl).2.1 rfl "ethernet1/5" rfl

/-! ## C5: side-effect ordering in `delete` and `apply` -/

/-- C5: in every successful `delete`, the virtual-router and zone membership
deletes are issued strictly before the delete of the interface entity itself;
in every successful `apply`, the edit creating the interface entity is issued
strictly before the zone/virtual-router membership set calls. -/
theorem interface_membership_call_order (XI XZ XV : String) (i : Interface)
    (xp : String) (el : Xml)
    (hdev : i.panDevice = true)
    (hok : i.xpathElem XI = .ok (xp, el)) :
    (∃ pre, i.deleteCalls XI XZ XV = .ok (pre ++ [ApiCall.delete xp])
      ∧ ∀ c ∈ pre,
          c = ApiCall.delete (XV ++ "/member[text()='" ++ i.name ++ "']")
          ∨ ∃ z, i.zone = some z ∧
              c = ApiCall.delete (XZ ++ "/entry[@name='" ++ z
                ++ "']/network/layer3/member[text()='" ++ i.name ++ "']"))
    ∧ (∃ post, i.applyCalls XI XZ XV = .ok (ApiCall.edit xp el :: post)
      ∧ ∀ c ∈ post,
          (∃ z, i.zone = some z ∧
            c = ApiCall.set (XZ ++ "/entry[@name='" ++ z ++ "']/network/layer3")
              ("<member>" ++ i.name ++ "</member>"))
          ∨ c = ApiCall.set XV ("<member>" ++ i.name ++ "</member>")) := by
  have hdev2 : (!i.panDevice) = false := by rw [hdev]; rfl
  constructor
  · refine ⟨(if strTruthy i.router then
        [ApiCall.delete (XV ++ "/member[text()='" ++ i.name ++ "']")] else [])
      ++ (match i.zone with
          | some z =>
              if !z.isEmpty then
                [ApiCall.delete (XZ ++ "/entry[@name='" ++ z
                    ++ "']/network/layer3/member[text()='" ++ i.name ++ "']")]
              else []
          | none => []), ?_, ?_⟩
    · unfold Interface.deleteCalls
      rw [hdev2, hok]
      simp
    · intro c hc
      rcases List.mem_append.mp hc with hl | hr
      · left
        split at hl
        · simpa using hl
        · cases hl
      · right
        cases hz : i.zone with
        | none => simp only [hz] at hr; cases hr
        | some z =>
            simp only [hz] at hr
            split at hr
            · exact ⟨z, rfl, by simpa using hr⟩
            · cases hr
  · refine ⟨(match i.zone with
        | some z =>
            if !z.isEmpty then
              [ApiCall.set (XZ ++ "/entry[@name='" ++ z ++ "']/network/layer3")
                ("<member>" ++ i.name ++ "</member>")]
            else []
        | none => [])
      ++ (if strTruthy i.router then
            [ApiCall.set XV ("<member>" ++ i.name ++ "</member>")]
          else []), ?_, ?_⟩
    · unfold Interface.applyCalls
      rw [hdev2, hok]
      simp
    · intro c hc
      rcases List.mem_append.mp hc with hl | hr
      · left
        cases hz : i.zone with
        | none => simp only [hz] at hl; cases hl
        | some z =>
            simp only [hz] at hl
            split at hl
            · exact ⟨z, rfl, by simpa using hl⟩
            · cases hl
      · right
        split at hr
        · simpa using hr
        · cases hr

/-- Witness for `interface_membership_call_order`: a layer3 ethernet
interface in zone `trust` on the default virtual router. -/
theorem interface_membership_call_order_witness :
    ∃ pre, Interface.deleteCalls "/XI" "/XZ" "/XV"
        ⟨"ethernet1/1", "ethernet", "layer3", none, some "trust", [],
          some "default", none, true, false, none⟩
      = .ok (pre ++ [ApiCall.delete
          ("/XI" ++ "/" ++ "ethernet" ++ "/entry[@name='" ++ "ethernet1/1" ++ "']")])
      ∧ ∀ c ∈ pre,
          c = ApiCall.delete ("/XV" ++ "/member[text()='" ++ "ethernet1/1" ++ "']")
          ∨ ∃ z, (some "trust" : Option String) = some z ∧
              c = ApiCall.delete ("/XZ" ++ "/entry[@name='" ++ z
                ++ "']/network/layer3/member[text()='" ++ "ethernet1/1" ++ "']") :=
  (interface_membership_call_order "/XI" "/XZ" "/XV"
    ⟨"ethernet1/1", "ethernet", "layer3", none, some "trust", [],
      some "default", none, true, false, none⟩
    ("/XI" ++ "/" ++ "ethernet" ++ "/entry[@name='" ++ "ethernet1/1" ++ "']")
    (.mk "entry" (some "ethernet1/1") none [.mk "layer3" none none []])
    rfl rfl).1

/-! ## C9: constructor name/tag normalization -/

/-- C9 (amended): if a non-None tag is given and the name does not end in
`.<digits>`, the stored name is the given name with `.` + tag appended (so its
dot-suffix is the tag); if tag is None and the name ends in `.<digits>`, the
stored tag is the name's second dot-separated field; but when a tag is given
and the name already ends in `.<digits>`, both are stored unchanged, so the
name's suffix need not equal the tag. -/
theorem interface_name_tag_normalization (name t : String) :
    (endsWithDotDigits name = false →
      interfaceInitNameTag name (some t) = (name ++ "." ++ t, some t))
    ∧ (endsWithDotDigits name = true →
      interfaceInitNameTag name none
        = (name, some ((name.splitOn ".").getD 1 "")))
    ∧ (endsWithDotDigits name = true →
      interfaceInitNameTag name (some t) = (name, some t)) := by
  refine ⟨?_, ?_, ?_⟩ <;> intro h <;>
    simp [interfaceInitNameTag, h]

/-- Witness for `interface_name_tag_normalization`: tag 5 on `ethernet1/1`
yields name `ethernet1/1.5`. -/
theorem interface_name_tag_normalization_witness :
    endsWithDotDigits "ethernet1/1" = false
    ∧ interfaceInitNameTag "ethernet1/1" (some "5")
        = ("ethernet1/1" ++ "." ++ "5", some "5") :=
  ⟨by decide, (interface_name_tag_normalization "ethernet1/1" "5").1 (by decide)⟩

/-- C9 counterexample: constructing with name `ethernet1/1.100` and tag `5`
keeps both unchanged — the stored name is dot-suffixed and a tag is present,
yet the name's suffix `100` differs from the tag `5`, refuting the claimed
consequent. -/
theorem interface_name_tag_suffix_cex :
    interfaceInitNameTag "ethernet1/1.100" (some "5")
        = ("ethernet1/1.100", some "5")
    ∧ endsWithDotDigits "ethernet1/1.100" = true
    ∧ dotSuffix "ethernet1/1.100" = "100"
    ∧ ("100" : String) ≠ "5" := by
  refine ⟨rfl, by decide, rfl, by decide⟩

/-! ## C10: zone setter no-op and idempotence -/

/-- C10: assigning the current zone value again leaves the object unchanged
and performs no remote calls, irrespective of `apply_changes`; consequently
assigning the same value twice in a row is equivalent to assigning it once
(the second assignment changes nothing and calls nothing). -/
theorem interface_zone_set_idempotent (XZ : String) (i : Interface)
    (v : Option String) :
    (i.zone = v → i.setZone XZ v = (i, []))
    ∧ (i.setZone XZ v).1.setZone XZ v = ((i.setZone XZ v).1, []) := by
  constructor
  · intro h
    simp [Interface.setZone, h]
  · by_cases h : i.zone = v
    · simp [Interface.setZone, h]
    · simp [Interface.setZone, h]

/-- Witness for `interface_zone_set_idempotent`: re-assigning zone `trust`
with `apply_changes=True` is a no-op with no API calls. -/
theorem interface_zone_set_idempotent_witness :
    (⟨"ethernet1/1", "ethernet", "layer3", none, some "trust", [],
        some "default", none, true, true, none⟩ : Interface).setZone "/XZ"
        (some "trust")
      = (⟨"ethernet1/1", "ethernet", "layer3", none, some "trust", [],
          some "default", none, true, true, none⟩, []) :=
  (interface_zone_set_idempotent "/XZ"
    ⟨"ethernet1/1", "ethernet", "layer3", none, some "trust", [],
      some "default", none, true, true, none⟩ (some "trust")).1 rfl

end PanDevice
